import Mathlib

/-!
Shallow embedding of the MSAL browser broker-delegation core:
the broker message validation and dispatch in BrokerClientApplication,
the silent-acquisition fallback orchestration in PublicClientApplication and
ExperimentalClientApplication, the in-memory broker response cache, and the
ClientInfo encoding helpers. Each definition mirrors one function of the
TypeScript source; external collaborators (base64 and JSON codecs, the token
endpoint network calls, the long-term token cache) are represented by oracle
parameters, as the specification fixes only their contracts.
-/

/-- Error taxonomy used across the embedded acquisition paths. Mirrors the
error classes raised by the source: InteractionRequiredAuthError,
BrowserAuthError.createNoAccountError, BrokerAuthError.createNoTokensToCacheError,
BrowserAuthError.createUntrustedBrokerError, ClientAuthError.createClientInfoDecodingError,
and generic network or server errors carried through unchanged. -/
inductive AuthErr where
  | interactionRequired
  | noAccountError
  | noTokensToCacheError
  | untrustedBroker
  | clientInfoDecodingError
  | networkError (code : Nat)
deriving DecidableEq

/-- Splitting a character list at every occurrence of a separator character,
mirroring the semantics of the JavaScript String.split method with a
one-character separator: the empty input yields one empty segment, and a
trailing separator yields a trailing empty segment. -/
def splitOnChar (sep : Char) : List Char → List (List Char)
  | [] => [[]]
  | c :: rest =>
    let r := splitOnChar sep rest
    if c = sep then [] :: r
    else
      match r with
      | [] => [[c]]
      | h :: t => (c :: h) :: t

/-- JavaScript String.split with a one-character separator, on Lean strings. -/
def jsSplit (sep : Char) (s : String) : List String :=
  (splitOnChar sep s.toList).map (fun l => String.mk l)

/-- JavaScript Array.join with a string separator. -/
def jsJoin (sep : String) (parts : List String) : String :=
  String.intercalate sep parts

/-- The uid and utid fields carried by a decoded client info object. -/
structure ClientInfoData where
  uid : String
  utid : String
deriving DecidableEq

/-- Raw client info input to the ClientInfo constructor. The base64 and JSON
codecs are external crypto collaborators, so a raw string is represented by
what decoding it yields: nullOrEmpty for a null, undefined or empty raw
string, decodable d for a string whose base64 decoding parses to the JSON
object with fields d, and undecodable for a string on which decoding throws. -/
inductive RawClientInfo where
  | nullOrEmpty
  | decodable (d : ClientInfoData)
  | undecodable
deriving DecidableEq

namespace ClientInfo

/-- The policy value computed inside ClientInfo.stripPolicyFromUid: the last
segment of the authority URL if it is non-empty, otherwise the second-to-last
segment if the split has more than one segment, otherwise the empty string. -/
def uidPolicy (authority : String) : String :=
  match (jsSplit '/' authority).reverse with
  | [] => ""
  | s0 :: rest =>
    if s0 ≠ "" then s0
    else
      match rest with
      | [] => ""
      | s1 :: _ => s1

/-- Embedding of ClientInfo.stripPolicyFromUid: if the final hyphen-separated
segment of the uid equals the policy derived from the authority URL, that
segment is dropped and the rest re-joined with hyphens; otherwise the uid is
returned unchanged. -/
def stripPolicyFromUid (uid authority : String) : String :=
  let uidSegments := jsSplit '-' uid
  let policy := uidPolicy authority
  if uidSegments.getLastD "" = policy then
    jsJoin "-" uidSegments.dropLast
  else
    uid

/-- Embedding of the ClientInfo constructor: a null or empty raw string yields
empty uid and utid without throwing; a decodable raw string yields the decoded
utid and the decoded uid with the policy stripped; an undecodable raw string
raises the client info decoding error. -/
def clientInfoOfRaw (raw : RawClientInfo) (authority : String) : Except AuthErr ClientInfoData :=
  match raw with
  | .nullOrEmpty => .ok ⟨"", ""⟩
  | .decodable d => .ok ⟨stripPolicyFromUid d.uid authority, d.utid⟩
  | .undecodable => .error .clientInfoDecodingError

/-- Embedding of ClientInfo.encodeClientInfo: serializes the uid and utid pair
and base64-encodes it. Since the base64 and JSON collaborators satisfy a
round-trip contract, the encoding is represented by the decodable raw value
carrying exactly the two fields. -/
def encodeClientInfo (c : ClientInfoData) : RawClientInfo :=
  .decodable ⟨c.uid, c.utid⟩

/-- Formalization of the wording of claim C10 only, for comparison with the
code: the trailing non-empty URL segment of the authority string. -/
def specTrailingNonEmptySegment (authority : String) : String :=
  (((jsSplit '/' authority).reverse).filter (fun s => s ≠ "")).headD ""

end ClientInfo

/-- The closed enumeration of broker message types from BrowserConstants. -/
inductive BrokerMessageType where
  | handshakeRequest
  | handshakeResponse
  | handleRedirectRequest
  | authRequest
  | authResponse
  | redirectResponse
deriving DecidableEq

/-- A raw cross-context message event as seen by a listener. The origin field
is the transport-observed sender origin of the MessageEvent; the
payloadBrokerOrigin field stands for any caller-supplied origin value placed
inside the message payload, which validation must never read. The messageType
field is none when the data carries no recognized message type, and
hasDataObject is false when the event data is not shaped like a broker
message at all. -/
structure RawMessageEvent where
  hasDataObject : Bool
  messageType : Option BrokerMessageType
  version : String
  payloadBrokerOrigin : String
  origin : String
deriving DecidableEq

/-- Modelled from the spec: BrokerMessage.validateMessage is not under src
(only its callers are). The spec fixes its contract: malformed shape, unknown
messageType, or missing required fields yields null rather than throwing, and
a structurally valid message is returned for the caller to dispatch on. -/
def validateMessage (m : RawMessageEvent) : Option RawMessageEvent :=
  if m.hasDataObject then
    match m.messageType with
    | some _ => some m
    | none => none
  else none

/-- Checks that the first character list is an initial run of the second. -/
def leadMatch : List Char → List Char → Bool
  | [], _ => true
  | _ :: _, [] => false
  | a :: as, b :: bs => if a = b then leadMatch as bs else false

/-- Modelled from the spec: StringUtils.matchPattern is not under src. The
spec fixes its contract: a trusted-domain entry matches the sender origin by
exact string equality or by a wildcard-style pattern in which the star stands
for an arbitrary infix, giving exact or wildcard-style matching against a
domain pattern. -/
def matchPattern (pattern input : String) : Bool :=
  match jsSplit '*' pattern with
  | [p] => p = input
  | [p, s] =>
    leadMatch p.toList input.toList && leadMatch s.toList.reverse input.toList.reverse
  | _ => false

/-- The validated payload of a broker handshake response: the protocol version
from the message data and the broker origin resolved during validation. -/
structure BrokerHandshakeResponseData where
  version : String
  brokerOrigin : String
deriving DecidableEq

/-- Embedding of BrokerHandshakeResponse.validate: structural validation first
(null on failure), then a check that the message is a handshake response
carrying a version; the trusted broker domain list is filtered by pattern
match against the transport-observed sender origin, an empty match list
raises the untrusted broker error, and a successful validation returns the
version together with the sender origin as the resolved broker origin. -/
def BrokerHandshakeResponse.validate (m : RawMessageEvent) (trustedBrokerDomains : List String) :
    Except AuthErr (Option BrokerHandshakeResponseData) :=
  match validateMessage m with
  | none => .ok none
  | some msg =>
    if msg.messageType = some BrokerMessageType.handshakeResponse ∧ msg.version ≠ "" then
      let matchedDomains := trustedBrokerDomains.filter (fun domain => matchPattern domain msg.origin)
      if matchedDomains.length ≤ 0 then
        .error .untrustedBroker
      else
        .ok (some ⟨msg.version, msg.origin⟩)
    else
      .ok none

/-- The handler a broker message is dispatched to by handleBrokerMessage. -/
inductive BrokerDispatch where
  | handshakeHandler
  | redirectResponseHandler
  | authRequestHandler
  | ignored
deriving DecidableEq

/-- Embedding of BrokerClientApplication.handleBrokerMessage: structural
validation first, dropping the message silently (no dispatch, no response) on
failure, then dispatch on the message type; recognized types reach their
handler and every other type is ignored. -/
def handleBrokerMessage (m : RawMessageEvent) : Option BrokerDispatch :=
  match validateMessage m with
  | none => none
  | some clientMessage =>
    match clientMessage.messageType with
    | some .handshakeRequest => some .handshakeHandler
    | some .handleRedirectRequest => some .redirectResponseHandler
    | some .authRequest => some .authRequestHandler
    | _ => some .ignored

/-- The interaction types of BrowserConstants. The source member named None is
rendered here as noInteraction. -/
inductive InteractionType where
  | silent
  | popup
  | redirect
  | noInteraction
deriving DecidableEq

/-- The slice of a BrokerAuthenticationResult the broker handlers inspect:
whether the result still carries tokens meant for caching by the embedded
application. -/
structure BrokerResult where
  tokensToCache : Bool
deriving DecidableEq

/-- Observable steps taken by the broker handlers, in program order: awaiting
the in-flight redirect-completion future, probing the in-memory response
cache (by request thumbprint or by embedded-app origin), posting a message on
the request channel (distinguished by payload), closing the channel, and
invoking an acquisition collaborator (refresh-token renewal, hidden-iframe
silent flow, popup flow, or redirect flow). -/
inductive BStep where
  | awaitRedirectFuture
  | probeCacheByThumbprint
  | probeCacheByOrigin
  | postCachedResult
  | postNullResult
  | postResult
  | postError
  | postRedirectSignal
  | closeChannel
  | callSilentRenewal
  | callSsoSilentIframe
  | callPopupFlow
  | callRedirectFlow
deriving DecidableEq

/-- Steps that post a response message on the embedded-app channel. -/
def isPostStep : BStep → Bool
  | .postCachedResult | .postNullResult | .postResult | .postError | .postRedirectSignal => true
  | _ => false

/-- Steps that invoke a network or acquisition collaborator. -/
def isAcquireStep : BStep → Bool
  | .callSilentRenewal | .callSsoSilentIframe | .callPopupFlow | .callRedirectFlow => true
  | _ => false

/-- Steps that read or write the in-memory response cache. -/
def isCacheStep : BStep → Bool
  | .probeCacheByThumbprint | .probeCacheByOrigin => true
  | _ => false

/-- Embedding of BrokerClientApplication.getInteractionType: an explicit
broker-configured preferred interaction type overrides the interaction type
stated in the message; with no broker preference the message type is used. -/
def getInteractionType (preferredInteractionType : Option InteractionType)
    (messageInteractionType : InteractionType) : InteractionType :=
  match preferredInteractionType with
  | some p => p
  | none => messageInteractionType

/-- Embedding of BrokerClientApplication.brokeredSilentRequest as its step
trace: the refresh-token renewal collaborator is invoked once; a successful
result with tokens to cache is posted, a successful result without them is
replaced by the no-tokens-to-cache error response, and a thrown error is
posted as an error response; in every case exactly one message is posted and
the channel is then closed. -/
def brokeredSilentRequest (outcome : Except AuthErr BrokerResult) : List BStep :=
  BStep.callSilentRenewal ::
    (match outcome with
     | .ok r =>
       if r.tokensToCache then [BStep.postResult, BStep.closeChannel]
       else [BStep.postError, BStep.closeChannel]
     | .error _ => [BStep.postError, BStep.closeChannel])

/-- Embedding of BrokerClientApplication.brokeredSsoSilentRequest as its step
trace: the hidden-iframe silent collaborator is invoked once and either the
result or the thrown error is posted, after which the channel is closed. -/
def brokeredSsoSilentRequest (outcome : Except AuthErr BrokerResult) : List BStep :=
  BStep.callSsoSilentIframe ::
    (match outcome with
     | .ok _ => [BStep.postResult, BStep.closeChannel]
     | .error _ => [BStep.postError, BStep.closeChannel])

/-- Embedding of BrokerClientApplication.brokeredPopupRequest as its step
trace: the popup acquisition runs and either the result or the thrown error
is posted, after which the channel is closed. -/
def brokeredPopupRequest (outcome : Except AuthErr BrokerResult) : List BStep :=
  BStep.callPopupFlow ::
    (match outcome with
     | .ok _ => [BStep.postResult, BStep.closeChannel]
     | .error _ => [BStep.postError, BStep.closeChannel])

/-- Embedding of BrokerClientApplication.brokeredRedirectRequest as its step
trace: the redirect notification is posted and the channel closed before the
redirect navigation starts; if initializing the brokered request then throws,
the catch block posts an additional error response on the already-closed
channel, otherwise the redirect flow is started without awaiting it. -/
def brokeredRedirectRequest (initThrows : Bool) : List BStep :=
  if initThrows then
    [BStep.postRedirectSignal, BStep.closeChannel, BStep.postError, BStep.closeChannel]
  else
    [BStep.postRedirectSignal, BStep.closeChannel, BStep.callRedirectFlow]

/-- Embedding of BrokerClientApplication.interactiveBrokerRequest as its step
trace: redirect and popup interaction types run the corresponding brokered
request; the silent and none interaction types only log an error and return,
posting nothing and leaving the channel open. -/
def interactiveBrokerRequest (interactionType : InteractionType)
    (redirectInitThrows : Bool) (popupOutcome : Except AuthErr BrokerResult) : List BStep :=
  match interactionType with
  | .redirect => brokeredRedirectRequest redirectInitThrows
  | .popup => brokeredPopupRequest popupOutcome
  | .silent => []
  | .noInteraction => []

/-- Inputs determining the path taken by handleBrokerAuthRequest: whether the
message validates, whether a redirect-completion future is in flight, whether
the thumbprint probe hits, whether an active account is set or one is carried
in the request, the interaction type stated in the message, the broker
preference, and the outcomes of the acquisition collaborators on each path. -/
structure BrokerAuthParams where
  valid : Bool
  redirectInProgress : Bool
  cacheHit : Bool
  hasAccount : Bool
  msgInteractionType : InteractionType
  brokerPref : Option InteractionType
  silentOutcome : Except AuthErr BrokerResult
  ssoOutcome : Except AuthErr BrokerResult
  popupOutcome : Except AuthErr BrokerResult
  redirectInitThrows : Bool

/-- Embedding of BrokerClientApplication.handleBrokerAuthRequest as its step
trace: an invalid message does nothing; otherwise any in-flight redirect
completion is awaited first, the request thumbprint is computed and the cache
probed, a hit is posted back and the channel closed immediately, and on a
miss the request is routed to the brokered silent renewal when an account is
available, to the hidden-iframe silent flow for silent requests, and through
getInteractionType to the interactive paths otherwise. -/
def handleBrokerAuthRequest (p : BrokerAuthParams) : List BStep :=
  if !p.valid then []
  else
    (if p.redirectInProgress then [BStep.awaitRedirectFuture] else []) ++
      BStep.probeCacheByThumbprint ::
        (if p.cacheHit then [BStep.postCachedResult, BStep.closeChannel]
         else if p.hasAccount then brokeredSilentRequest p.silentOutcome
         else
           match p.msgInteractionType with
           | .silent => brokeredSsoSilentRequest p.ssoOutcome
           | _ =>
             interactiveBrokerRequest (getInteractionType p.brokerPref p.msgInteractionType)
               p.redirectInitThrows p.popupOutcome)

/-- Inputs determining the path taken by handleBrokerRedirectResponse:
whether the message validates, whether a redirect-completion future is in
flight, and whether the origin probe of the in-memory cache hits. -/
structure BrokerRedirectParams where
  valid : Bool
  redirectInProgress : Bool
  cacheHitByOrigin : Bool

/-- Embedding of BrokerClientApplication.handleBrokerRedirectResponse as its
step trace: an invalid message does nothing; otherwise any in-flight redirect
completion is awaited first, then the in-memory cache is probed by the sender
origin and either the cached response or a null response is posted, after
which the channel is closed. -/
def handleBrokerRedirectResponse (p : BrokerRedirectParams) : List BStep :=
  if !p.valid then []
  else
    (if p.redirectInProgress then [BStep.awaitRedirectFuture] else []) ++
      BStep.probeCacheByOrigin ::
        (if p.cacheHitByOrigin then [BStep.postResult, BStep.closeChannel]
         else [BStep.postNullResult, BStep.closeChannel])

/-- A request thumbprint as built inline by handleBrokerAuthRequest from the
authority of the request, the embedded client id, and the scopes carried by
the request. -/
structure RequestThumbprint where
  authority : String
  clientId : String
  scopes : List String
deriving DecidableEq

/-- The thumbprint constructed by handleBrokerAuthRequest before probing the
in-memory cache: the authority of the validated request, the embedded client
id of the message, and the scopes exactly as carried by the request. -/
def reqThumbprint (authority clientId : String) (scopes : List String) : RequestThumbprint :=
  ⟨authority, clientId, scopes⟩

/-- Scope normalization underlying thumbprint comparison: duplicates are
collapsed and the remaining scopes ordered canonically, so that two scope
lists with the same elements produce the same normalized list. -/
def normalizeScopes (scopes : List String) : List String :=
  List.insertionSort (fun a b => a ≤ b) scopes.dedup

/-- Modelled from the spec: generateBrokerResponseKey and the thumbprint
lookup of getBrokerResponseByThumbprint live in the browser cache manager,
which is not under src (only its callers are). The spec fixes the contract:
two thumbprints are equal iff the authority strings match exactly and the
scope sets are equal as sets, so the cache key is derived from the client id,
the authority, and the normalized scope set. -/
def generateBrokerResponseKey (tp : RequestThumbprint) : String :=
  tp.clientId ++ "-" ++ tp.authority ++ "-" ++ String.intercalate "," (normalizeScopes tp.scopes)

/-- The slice of a completed BrokerAuthenticationResult that the redirect
completion path of the broker inspects and stores: the tokensToCache flag,
the response thumbprint the cache key is derived from, and the account. -/
structure BrokerAuthenticationResult where
  tokensToCache : Bool
  responseThumbprint : RequestThumbprint
  account : String
deriving DecidableEq

/-- The in-memory state owned by the broker: the process-lifetime response
cache and the active account. -/
structure BrokerCacheState where
  memoryCache : List (String × BrokerAuthenticationResult)
  activeAccount : Option String
deriving DecidableEq

/-- Modelled from the spec: browserStorage.setMemoryCache is not under src.
The spec fixes its contract as the put operation of a synchronous in-memory
map from keys to serialized acquisition results. -/
def setMemoryCache (key : String) (value : BrokerAuthenticationResult)
    (st : BrokerCacheState) : BrokerCacheState :=
  { st with memoryCache := (key, value) :: st.memoryCache }

/-- Embedding of setActiveAccount as the update of the active-account slot. -/
def setActiveAccount (account : Option String) (st : BrokerCacheState) : BrokerCacheState :=
  { st with activeAccount := account }

/-- Embedding of BrokerClientApplication.waitForBrokeredResponse: a null
response is passed through; a response without tokens to cache is meant for
the broker itself and is returned without caching; a response with tokens to
cache is stored in the in-memory cache under the key generated from its
response thumbprint, its account becomes the active account, and null is
returned. -/
def waitForBrokeredResponse (brokerResponse : Option BrokerAuthenticationResult)
    (st : BrokerCacheState) : Option BrokerAuthenticationResult × BrokerCacheState :=
  match brokerResponse with
  | none => (none, st)
  | some cachedResponse =>
    if !cachedResponse.tokensToCache then
      (some cachedResponse, st)
    else
      (none,
        setActiveAccount (some cachedResponse.account)
          (setMemoryCache (generateBrokerResponseKey cachedResponse.responseThumbprint)
            cachedResponse st))

/-- Embedding of BrokerClientApplication.handleRedirectPromise: the brokered
response is awaited and cached by waitForBrokeredResponse, and the response
is returned to the broker application only when it is meant for the broker,
that is, only when it carries no tokens to cache; otherwise null is
returned. -/
def BrokerClientApplication.handleRedirectPromise
    (brokerResponse : Option BrokerAuthenticationResult)
    (st : BrokerCacheState) : Option BrokerAuthenticationResult × BrokerCacheState :=
  let res := waitForBrokeredResponse brokerResponse st
  (match res.1 with
   | some redirectResponse =>
     if !redirectResponse.tokensToCache then some redirectResponse else none
   | none => none,
   res.2)

/-- Observable steps taken by the client-side public acquisition calls: a
lookup in the local token cache, a silent renewal through the refresh-token
collaborator, forwarding the call to the broker over the brokered channel,
starting a local interactive flow, and processing a redirect hash locally. -/
inductive ClientStep where
  | localCacheLookup
  | localRenewalCall
  | forwardToBroker
  | localInteractiveCall
  | localRedirectProcessing
deriving DecidableEq

/-- Oracle outcomes for a silent acquisition call: whether an account is
available (set active or supplied in the request), and the results the local
token cache, the refresh-token exchange, and the broker would deliver. -/
structure SilentCallEnv where
  hasAccount : Bool
  cacheResult : Except AuthErr String
  renewalResult : Except AuthErr String
  brokerResult : Except AuthErr String

/-- Embedding of PublicClientApplication.acquireTokenSilent: when the broker
connection is established the request is forwarded to the broker; otherwise
the locally cached token is tried first, a cache failure triggers exactly one
silent renewal through the refresh-token exchange, and a renewal failure is
rethrown unmodified. No path starts an interactive flow. -/
def PublicClientApplication.acquireTokenSilent (brokerConnectionEstablished : Bool)
    (env : SilentCallEnv) : Except AuthErr String × List ClientStep :=
  if brokerConnectionEstablished then
    (env.brokerResult, [ClientStep.forwardToBroker])
  else
    match env.cacheResult with
    | .ok t => (.ok t, [ClientStep.localCacheLookup])
    | .error _ =>
      match env.renewalResult with
      | .ok t => (.ok t, [ClientStep.localCacheLookup, ClientStep.localRenewalCall])
      | .error e => (.error e, [ClientStep.localCacheLookup, ClientStep.localRenewalCall])

/-- Embedding of ExperimentalClientApplication.acquireTokenSilent: without an
account the no-account error is thrown before any lookup; otherwise the
locally cached token is tried first, and only on a cache failure is the
request forwarded to the broker when the connection is established, or
renewed silently exactly once otherwise, with a renewal failure rethrown
unmodified. No path starts an interactive flow. -/
def ExperimentalClientApplication.acquireTokenSilent (brokerConnectionEstablished : Bool)
    (env : SilentCallEnv) : Except AuthErr String × List ClientStep :=
  if !env.hasAccount then
    (.error .noAccountError, [])
  else
    match env.cacheResult with
    | .ok t => (.ok t, [ClientStep.localCacheLookup])
    | .error _ =>
      if brokerConnectionEstablished then
        (env.brokerResult, [ClientStep.localCacheLookup, ClientStep.forwardToBroker])
      else
        match env.renewalResult with
        | .ok t => (.ok t, [ClientStep.localCacheLookup, ClientStep.localRenewalCall])
        | .error e => (.error e, [ClientStep.localCacheLookup, ClientStep.localRenewalCall])

/-- Embedding of PublicClientApplication.acquireTokenPopup: when the broker
connection is established the request is forwarded to the broker with no
local work first; otherwise the local popup flow runs. -/
def PublicClientApplication.acquireTokenPopup (brokerConnectionEstablished : Bool)
    (popupResult brokerResult : Except AuthErr String) : Except AuthErr String × List ClientStep :=
  if brokerConnectionEstablished then
    (brokerResult, [ClientStep.forwardToBroker])
  else
    (popupResult, [ClientStep.localInteractiveCall])

/-- Embedding of PublicClientApplication.handleRedirectPromise on the client
side: an application acting as broker handles the redirect itself; an
embedded application with an established broker connection forwards the
handle-redirect request to the broker with no local work first; otherwise
the redirect hash is processed locally. -/
def PublicClientApplication.handleRedirectPromise (actsAsBroker brokerConnectionEstablished : Bool)
    (brokerSideResult brokerResult localResult : Except AuthErr String) :
    Except AuthErr String × List ClientStep :=
  if actsAsBroker then
    (brokerSideResult, [ClientStep.localRedirectProcessing])
  else if brokerConnectionEstablished then
    (brokerResult, [ClientStep.forwardToBroker])
  else
    (localResult, [ClientStep.localRedirectProcessing])

deriving instance DecidableEq for Except

/-- Helper: structural validation either fails or returns the message itself. -/
theorem validateMessage_eq_self {m msg : RawMessageEvent}
    (h : validateMessage m = some msg) : msg = m := by
  unfold validateMessage at h
  split at h
  · cases hmt : m.messageType with
    | none => rw [hmt] at h; exact absurd h (by simp)
    | some t => rw [hmt] at h; exact (Option.some_inj.mp h).symm
  · exact absurd h (by simp)

/-- Claim C1: for every acquireTokenSilent call not served by the broker (the
broker connection not established, and for the experimental variant an
account available so the call reaches the acquisition path), the locally
cached token is tried first and returned on success with no renewal; a cache
failure triggers exactly one silent renewal via the refresh-token exchange;
a renewal failure is rethrown unmodified, whatever the error (including an
interaction-required error); and no trace contains an interactive step, so
no popup or redirect flow is ever started by the orchestrator itself. -/
theorem C1_silent_fallback_chain (env : SilentCallEnv) (t : String) (cErr e : AuthErr) :
    PublicClientApplication.acquireTokenSilent false { env with cacheResult := .ok t } =
      (.ok t, [ClientStep.localCacheLookup]) ∧
    PublicClientApplication.acquireTokenSilent false
        { env with cacheResult := .error cErr, renewalResult := .ok t } =
      (.ok t, [ClientStep.localCacheLookup, ClientStep.localRenewalCall]) ∧
    PublicClientApplication.acquireTokenSilent false
        { env with cacheResult := .error cErr, renewalResult := .error e } =
      (.error e, [ClientStep.localCacheLookup, ClientStep.localRenewalCall]) ∧
    ExperimentalClientApplication.acquireTokenSilent false
        { env with hasAccount := true, cacheResult := .ok t } =
      (.ok t, [ClientStep.localCacheLookup]) ∧
    ExperimentalClientApplication.acquireTokenSilent false
        { env with hasAccount := true, cacheResult := .error cErr, renewalResult := .ok t } =
      (.ok t, [ClientStep.localCacheLookup, ClientStep.localRenewalCall]) ∧
    ExperimentalClientApplication.acquireTokenSilent false
        { env with hasAccount := true, cacheResult := .error cErr, renewalResult := .error e } =
      (.error e, [ClientStep.localCacheLookup, ClientStep.localRenewalCall]) ∧
    ExperimentalClientApplication.acquireTokenSilent true
        { env with hasAccount := true, cacheResult := .ok t } =
      (.ok t, [ClientStep.localCacheLookup]) :=
  ⟨rfl, rfl, rfl, rfl, rfl, rfl, rfl⟩

/-- Claim C2: within one broker instance the redirect-completion future is a
barrier. For a validated incoming auth request and a validated incoming
redirect-completion request, when a redirect completion is in progress the
handler trace is exactly the await of that future followed by the trace of
the same request with no completion in flight, so every cache probe, cache
write and acquisition happens only after the future resolves; an invalid
message produces no trace at all. -/
theorem C2_redirect_future_barrier (p : BrokerAuthParams) (q : BrokerRedirectParams) :
    handleBrokerAuthRequest { p with valid := true, redirectInProgress := true } =
      BStep.awaitRedirectFuture ::
        handleBrokerAuthRequest { p with valid := true, redirectInProgress := false } ∧
    handleBrokerRedirectResponse { q with valid := true, redirectInProgress := true } =
      BStep.awaitRedirectFuture ::
        handleBrokerRedirectResponse { q with valid := true, redirectInProgress := false } ∧
    handleBrokerAuthRequest { p with valid := false } = [] ∧
    handleBrokerRedirectResponse { q with valid := false } = [] :=
  ⟨rfl, rfl, rfl, rfl⟩

/-- Claim C3: a validated brokered auth request whose thumbprint and origin
hit the response cache is answered from the cache: the trace is the optional
barrier await, the cache probe, the post of the cached result and the close
of the channel; it contains exactly one posted response, no acquisition or
network collaborator call, and ends by closing the channel. -/
theorem C3_cache_hit_answers_immediately (p : BrokerAuthParams) :
    handleBrokerAuthRequest { p with valid := true, cacheHit := true } =
      (if p.redirectInProgress then [BStep.awaitRedirectFuture] else []) ++
        [BStep.probeCacheByThumbprint, BStep.postCachedResult, BStep.closeChannel] ∧
    List.countP (fun s => isPostStep s)
      (handleBrokerAuthRequest { p with valid := true, cacheHit := true }) = 1 ∧
    List.countP (fun s => isAcquireStep s)
      (handleBrokerAuthRequest { p with valid := true, cacheHit := true }) = 0 ∧
    (handleBrokerAuthRequest { p with valid := true, cacheHit := true }).getLast? =
      some BStep.closeChannel := by
  obtain ⟨v, rip, ch, ha, mit, bp, so, sso, po, rit⟩ := p
  cases rip <;> exact ⟨rfl, rfl, rfl, rfl⟩

/-- Helper: the brokered silent renewal path posts exactly one response. -/
theorem postCount_brokeredSilentRequest (o : Except AuthErr BrokerResult) :
    List.countP (fun s => isPostStep s) (brokeredSilentRequest o) = 1 ∧
    (brokeredSilentRequest o).getLast? = some BStep.closeChannel := by
  rcases o with e | ⟨_ | _⟩ <;> exact ⟨rfl, rfl⟩

/-- Helper: the brokered hidden-iframe path posts exactly one response. -/
theorem postCount_brokeredSsoSilentRequest (o : Except AuthErr BrokerResult) :
    List.countP (fun s => isPostStep s) (brokeredSsoSilentRequest o) = 1 ∧
    (brokeredSsoSilentRequest o).getLast? = some BStep.closeChannel := by
  rcases o with e | ⟨tc⟩
  · exact ⟨rfl, rfl⟩
  · exact ⟨rfl, rfl⟩

/-- Helper: the brokered popup path posts exactly one response. -/
theorem postCount_brokeredPopupRequest (o : Except AuthErr BrokerResult) :
    List.countP (fun s => isPostStep s) (brokeredPopupRequest o) = 1 ∧
    (brokeredPopupRequest o).getLast? = some BStep.closeChannel := by
  rcases o with e | ⟨tc⟩
  · exact ⟨rfl, rfl⟩
  · exact ⟨rfl, rfl⟩

/-- Claim C4, counterexample: a validated auth request that misses the cache
with no account available, asking for a popup while the broker configuration
prefers the none interaction type, reaches interactiveBrokerRequest, which
only logs and returns: the trace is just the cache probe, zero responses are
posted and the channel is never closed, refuting the claim that every
brokered request with a channel gets exactly one response and a close. -/
theorem C4_counterexample :
    handleBrokerAuthRequest
        ⟨true, false, false, false, InteractionType.popup, some InteractionType.noInteraction,
          Except.error AuthErr.interactionRequired, Except.error AuthErr.interactionRequired,
          Except.error AuthErr.interactionRequired, false⟩ =
      [BStep.probeCacheByThumbprint] ∧
    List.countP (fun s => isPostStep s)
      (handleBrokerAuthRequest
        ⟨true, false, false, false, InteractionType.popup, some InteractionType.noInteraction,
          Except.error AuthErr.interactionRequired, Except.error AuthErr.interactionRequired,
          Except.error AuthErr.interactionRequired, false⟩) = 0 ∧
    BStep.closeChannel ∉
      handleBrokerAuthRequest
        ⟨true, false, false, false, InteractionType.popup, some InteractionType.noInteraction,
          Except.error AuthErr.interactionRequired, Except.error AuthErr.interactionRequired,
          Except.error AuthErr.interactionRequired, false⟩ := by
  refine ⟨rfl, rfl, ?_⟩
  decide

/-- Claim C4 as amended: each terminal brokered request path that runs posts
exactly one response and then closes the channel, with two exceptions forced
by the code: interactiveBrokerRequest invoked with a resolved interaction
type of silent or none posts nothing and leaves the channel open, and
brokeredRedirectRequest posts a second error response on the already-closed
channel when initializing the brokered request throws after the redirect
notification was sent. -/
theorem C4_amended_single_response (o so po : Except AuthErr BrokerResult) (rt : Bool) :
    (List.countP (fun s => isPostStep s) (brokeredSilentRequest o) = 1 ∧
      (brokeredSilentRequest o).getLast? = some BStep.closeChannel) ∧
    (List.countP (fun s => isPostStep s) (brokeredSsoSilentRequest so) = 1 ∧
      (brokeredSsoSilentRequest so).getLast? = some BStep.closeChannel) ∧
    (List.countP (fun s => isPostStep s) (brokeredPopupRequest po) = 1 ∧
      (brokeredPopupRequest po).getLast? = some BStep.closeChannel) ∧
    List.countP (fun s => isPostStep s) (brokeredRedirectRequest false) = 1 ∧
    List.countP (fun s => isPostStep s) (brokeredRedirectRequest true) = 2 ∧
    List.countP (fun s => isPostStep s) (interactiveBrokerRequest InteractionType.silent rt po) = 0 ∧
    List.countP (fun s => isPostStep s)
      (interactiveBrokerRequest InteractionType.noInteraction rt po) = 0 :=
  ⟨postCount_brokeredSilentRequest o, postCount_brokeredSsoSilentRequest so,
    postCount_brokeredPopupRequest po, rfl, rfl, rfl, rfl⟩

/-- Claim C5: a structurally malformed incoming message (bad shape, unknown
message type, or missing required fields) fails structural validation with
null and the recipient drops it silently, dispatching nothing; whereas a
structurally valid handshake response whose transport-observed sender origin
matches no entry of the trusted broker domain list, by exact or wildcard
pattern match, raises the untrusted-broker error instead of being dropped. -/
theorem C5_fail_closed_vs_untrusted (m : RawMessageEvent) (trustedBrokerDomains : List String) :
    (validateMessage m = none → handleBrokerMessage m = none) ∧
    (m.hasDataObject = true →
      m.messageType = some BrokerMessageType.handshakeResponse →
      m.version ≠ "" →
      (∀ d ∈ trustedBrokerDomains, matchPattern d m.origin = false) →
      BrokerHandshakeResponse.validate m trustedBrokerDomains =
        Except.error AuthErr.untrustedBroker) := by
  constructor
  · intro h
    unfold handleBrokerMessage
    rw [h]
  · intro h1 h2 h3 h4
    obtain ⟨hd, mt, v, pb, o⟩ := m
    simp only at h1 h2 h3 h4
    subst h1
    subst h2
    have hfil : trustedBrokerDomains.filter (fun domain => matchPattern domain o) = [] :=
      List.filter_eq_nil_iff.mpr (fun d hdm => by simp [h4 d hdm])
    simp [BrokerHandshakeResponse.validate, validateMessage, h3, hfil]

/-- Witness for claim C5: a concrete malformed message (event data not shaped
like a broker message) is dropped with no dispatch, and a concrete
structurally valid handshake response from an origin matching no trusted
domain raises the untrusted-broker error. -/
theorem C5_witness :
    handleBrokerMessage
        ⟨false, some BrokerMessageType.authRequest, "1.0", "", "https://child.example"⟩ = none ∧
    BrokerHandshakeResponse.validate
        ⟨true, some BrokerMessageType.handshakeResponse, "1.0", "", "https://evil.example"⟩
        ["https://trusted.example"] = Except.error AuthErr.untrustedBroker :=
  ⟨(C5_fail_closed_vs_untrusted
      ⟨false, some BrokerMessageType.authRequest, "1.0", "", "https://child.example"⟩ []).1
      (by decide),
   (C5_fail_closed_vs_untrusted
      ⟨true, some BrokerMessageType.handshakeResponse, "1.0", "", "https://evil.example"⟩
      ["https://trusted.example"]).2 rfl rfl (by decide) (by decide)⟩

/-- Claim C6: the brokerOrigin recorded in a validated handshake response is
always the transport-observed sender origin of the message event, and the
validation outcome is entirely independent of any caller-supplied origin
field inside the message payload: varying that payload field never changes
the result of validation. -/
theorem C6_broker_origin_from_transport (m : RawMessageEvent) (trusted : List String) :
    (∀ r, BrokerHandshakeResponse.validate m trusted = Except.ok (some r) →
      r.brokerOrigin = m.origin) ∧
    (∀ p, BrokerHandshakeResponse.validate { m with payloadBrokerOrigin := p } trusted =
      BrokerHandshakeResponse.validate m trusted) := by
  constructor
  · intro r h
    obtain ⟨hd, mt, v, pb, o⟩ := m
    cases hd
    · simp [BrokerHandshakeResponse.validate, validateMessage] at h
    · cases mt with
      | none => simp [BrokerHandshakeResponse.validate, validateMessage] at h
      | some t =>
        by_cases hc : (t = BrokerMessageType.handshakeResponse ∧ ¬ (v : String) = "")
        · by_cases hf :
              (List.filter (fun domain => matchPattern domain o) trusted).length ≤ 0
          · simp [BrokerHandshakeResponse.validate, validateMessage, hc, hf] at h
          · simp [BrokerHandshakeResponse.validate, validateMessage, hc, hf] at h
            rw [← h]
        · simp [BrokerHandshakeResponse.validate, validateMessage, hc] at h
  · intro p
    obtain ⟨hd, mt, v, pb, o⟩ := m
    cases hd <;> cases mt <;> rfl

/-- Witness for claim C6: a concrete trusted handshake response validates to
a response whose brokerOrigin equals the transport-observed sender origin,
even though the payload carries a different caller-supplied origin field. -/
theorem C6_witness :
    BrokerHandshakeResponse.validate
        ⟨true, some BrokerMessageType.handshakeResponse, "1.0", "https://spoof.example",
          "https://broker.example"⟩ ["https://broker.example"] =
      Except.ok (some ⟨"1.0", "https://broker.example"⟩) ∧
    BrokerHandshakeResponseData.brokerOrigin ⟨"1.0", "https://broker.example"⟩ =
      RawMessageEvent.origin
        ⟨true, some BrokerMessageType.handshakeResponse, "1.0", "https://spoof.example",
          "https://broker.example"⟩ :=
  ⟨by decide,
   (C6_broker_origin_from_transport
      ⟨true, some BrokerMessageType.handshakeResponse, "1.0", "https://spoof.example",
        "https://broker.example"⟩ ["https://broker.example"]).1
      ⟨"1.0", "https://broker.example"⟩ (by decide)⟩

/-- Claim C7, counterexample: with the broker connection established, the
experimental acquireTokenSilent first performs the local cached-token lookup
and, on a hit, returns it locally: the brokered channel is never used and a
local cache lookup happened, refuting the claim that every public
acquisition call made while the connection is established is forwarded with
no local cache lookup first. -/
theorem C7_counterexample :
    ExperimentalClientApplication.acquireTokenSilent true
        ⟨true, Except.ok "cachedToken", Except.ok "renewed", Except.ok "brokered"⟩ =
      (Except.ok "cachedToken", [ClientStep.localCacheLookup]) ∧
    ClientStep.forwardToBroker ∉
      (ExperimentalClientApplication.acquireTokenSilent true
        ⟨true, Except.ok "cachedToken", Except.ok "renewed", Except.ok "brokered"⟩).2 ∧
    ClientStep.localCacheLookup ∈
      (ExperimentalClientApplication.acquireTokenSilent true
        ⟨true, Except.ok "cachedToken", Except.ok "renewed", Except.ok "brokered"⟩).2 := by
  refine ⟨rfl, ?_, ?_⟩ <;> decide

/-- Claim C7 as amended: while the broker connection is established,
acquireTokenPopup, handleRedirectPromise and the standard acquireTokenSilent
forward the call to the broker over the brokered channel with no local cache
lookup or local acquisition first; the experimental acquireTokenSilent
instead attempts the local cached-token lookup first, returns a hit locally
without contacting the broker, and forwards to the broker only after that
lookup fails. -/
theorem C7_amended_broker_routing (env : SilentCallEnv) (pr br bsr lr : Except AuthErr String)
    (t : String) (cErr : AuthErr) :
    PublicClientApplication.acquireTokenPopup true pr br = (br, [ClientStep.forwardToBroker]) ∧
    PublicClientApplication.handleRedirectPromise false true bsr br lr =
      (br, [ClientStep.forwardToBroker]) ∧
    PublicClientApplication.acquireTokenSilent true env =
      (env.brokerResult, [ClientStep.forwardToBroker]) ∧
    ExperimentalClientApplication.acquireTokenSilent true
        { env with hasAccount := true, cacheResult := .error cErr } =
      (env.brokerResult, [ClientStep.localCacheLookup, ClientStep.forwardToBroker]) ∧
    ExperimentalClientApplication.acquireTokenSilent true
        { env with hasAccount := true, cacheResult := .ok t } =
      (.ok t, [ClientStep.localCacheLookup]) :=
  ⟨rfl, rfl, rfl, rfl, rfl⟩

/-- Claim C8: for the same authority and embedded client id, two scope lists
with the same elements, whatever their order and multiplicity, produce equal
response-cache keys, so an entry written under one scope ordering is found by
a probe using another ordering. -/
theorem C8_thumbprint_scope_set_semantics (authority clientId : String) (s1 s2 : List String)
    (h1 : ∀ x ∈ s1, x ∈ s2) (h2 : ∀ x ∈ s2, x ∈ s1) :
    generateBrokerResponseKey (reqThumbprint authority clientId s1) =
      generateBrokerResponseKey (reqThumbprint authority clientId s2) := by
  have hperm : List.Perm s1.dedup s2.dedup := by
    rw [List.perm_ext_iff_of_nodup (List.nodup_dedup s1) (List.nodup_dedup s2)]
    intro a
    simp only [List.mem_dedup]
    exact ⟨fun ha => h1 a ha, fun ha => h2 a ha⟩
  have hsorted :
      List.insertionSort (fun a b : String => a ≤ b) s1.dedup =
        List.insertionSort (fun a b : String => a ≤ b) s2.dedup :=
    List.eq_of_perm_of_sorted
      (((List.perm_insertionSort _ _).trans hperm).trans (List.perm_insertionSort _ _).symm)
      (List.sorted_insertionSort _ _) (List.sorted_insertionSort _ _)
  have hn : normalizeScopes s1 = normalizeScopes s2 := hsorted
  unfold generateBrokerResponseKey reqThumbprint
  rw [hn]

/-- Witness for claim C8: a concrete permuted scope list with a duplicate
yields the same response-cache key as the original ordering. -/
theorem C8_witness :
    generateBrokerResponseKey
        (reqThumbprint "https://login.example/tenant" "client1" ["openid", "profile"]) =
      generateBrokerResponseKey
        (reqThumbprint "https://login.example/tenant" "client1"
          ["profile", "openid", "profile"]) :=
  C8_thumbprint_scope_set_semantics "https://login.example/tenant" "client1"
    ["openid", "profile"] ["profile", "openid", "profile"] (by decide) (by decide)

/-- Claim C9: a completed brokered redirect response with the tokensToCache
flag set is stored in the in-memory response cache under the key derived
from its response thumbprint, its account becomes the active account, and
handleRedirectPromise returns null; a response without the flag is returned
to the broker application and the cache and active account are untouched. -/
theorem C9_redirect_response_caching (tp : RequestThumbprint) (acct : String)
    (st : BrokerCacheState) :
    BrokerClientApplication.handleRedirectPromise
        (some ⟨true, tp, acct⟩) st =
      (none,
        ⟨(generateBrokerResponseKey tp, ⟨true, tp, acct⟩) :: st.memoryCache, some acct⟩) ∧
    BrokerClientApplication.handleRedirectPromise (some ⟨false, tp, acct⟩) st =
      (some ⟨false, tp, acct⟩, st) :=
  ⟨rfl, rfl⟩

/-- Claim C10, counterexample: for the authority string consisting of one
segment followed by two slashes, the trailing non-empty URL segment differs
from the final hyphen-segment of the uid, yet the encode-construct round
trip still strips the trailing empty uid segment, because the code takes the
second-to-last URL segment (here empty) when the last is empty, rather than
the trailing non-empty one. -/
theorem C10_counterexample :
    ClientInfo.specTrailingNonEmptySegment "a//" ≠ (jsSplit '-' "x-").getLastD "" ∧
    ClientInfo.clientInfoOfRaw (ClientInfo.encodeClientInfo ⟨"x-", "t"⟩) "a//" ≠
      Except.ok (⟨"x-", "t"⟩ : ClientInfoData) ∧
    ClientInfo.clientInfoOfRaw (ClientInfo.encodeClientInfo ⟨"x-", "t"⟩) "a//" =
      Except.ok (⟨"x", "t"⟩ : ClientInfoData) := by
  refine ⟨by decide, by decide, by decide⟩

/-- Claim C10 as amended: encoding a ClientInfo value and constructing a new
one from that encoding preserves uid and utid provided the policy the code
derives from the authority (the last URL segment if non-empty, otherwise the
second-to-last segment, which may be empty) differs from the final
hyphen-separated segment of the uid; and construction from a null or empty
raw string yields empty uid and utid without throwing. -/
theorem C10_roundtrip_policy_guard (c : ClientInfoData) (authority : String)
    (h : ClientInfo.uidPolicy authority ≠ (jsSplit '-' c.uid).getLastD "") :
    ClientInfo.clientInfoOfRaw (ClientInfo.encodeClientInfo c) authority = .ok c ∧
    ClientInfo.clientInfoOfRaw .nullOrEmpty authority = .ok ⟨"", ""⟩ := by
  refine ⟨?_, rfl⟩
  have hs : ClientInfo.stripPolicyFromUid c.uid authority = c.uid := by
    unfold ClientInfo.stripPolicyFromUid
    rw [if_neg (fun hh => h hh.symm)]
  show Except.ok (⟨ClientInfo.stripPolicyFromUid c.uid authority, c.utid⟩ : ClientInfoData) =
    Except.ok c
  rw [hs]

/-- Witness for claim C10 as amended: a concrete uid with two hyphen
segments and an authority whose policy segment differs from the last uid
segment round-trips unchanged, and the empty raw string yields empty fields. -/
theorem C10_witness :
    ClientInfo.uidPolicy "https://login.example/tfp/tenant/policyA" ≠
      (jsSplit '-' "uidpart1-uidpart2").getLastD "" ∧
    ClientInfo.clientInfoOfRaw
        (ClientInfo.encodeClientInfo ⟨"uidpart1-uidpart2", "tid"⟩)
        "https://login.example/tfp/tenant/policyA" = .ok ⟨"uidpart1-uidpart2", "tid"⟩ :=
  ⟨by decide,
   (C10_roundtrip_policy_guard ⟨"uidpart1-uidpart2", "tid"⟩
      "https://login.example/tfp/tenant/policyA" (by decide)).1⟩
